import Mathlib

/-!
Verification of the move-effect compiler of `resources/moves.py`
(pokemonlegends-backend).  The Python functions `map_target`,
`map_stat_name`, `map_status_name`, `get_english_effect` and
`parse_effect_data` are embedded below as executable Lean definitions;
the theorems at the end of the file settle the specification claims
about them.
-/

namespace PokemonMoves

/-! ### String primitives

Python string operations used by the source (`in`, `.lower()`,
`.replace(...)`, `re.search("lower.*X", s)`) modelled on the character
list of a string. -/

/-- `contains_sub pat s`: `pat` occurs as a contiguous sublist of `s`
(Python `pat in s` on strings). -/
def contains_sub (pat : List Char) : List Char → Bool
  | [] => pat.isEmpty
  | c :: t => pat.isPrefixOf (c :: t) || contains_sub pat t

/-- Python substring test `pat in s`. -/
def str_contains (s pat : String) : Bool :=
  contains_sub pat.data s.data

/-- Python `s.lower()` (ASCII: the only characters the claims exercise). -/
def str_lower (s : String) : String :=
  ⟨s.data.map Char.toLower⟩

/-- One left-to-right non-overlapping replacement pass, fuelled by the
input length so the recursion is structural. -/
def replace_fuel (pat rep : List Char) : Nat → List Char → List Char
  | _, [] => []
  | 0, s => s
  | fuel + 1, c :: t =>
    if pat.isPrefixOf (c :: t) then
      rep ++ replace_fuel pat rep fuel ((c :: t).drop pat.length)
    else
      c :: replace_fuel pat rep fuel t

/-- Python `s.replace(pat, rep)` (all occurrences, left to right,
non-overlapping). -/
def str_replace (s pat rep : String) : String :=
  ⟨replace_fuel pat.data rep.data s.data.length s.data⟩

/-- Does the regex `.*word` match some prefix of `s`, `.` not matching
a newline (Python `re` default)? -/
def match_dot_star (word : List Char) : List Char → Bool
  | [] => word.isEmpty
  | c :: t => word.isPrefixOf (c :: t) || ((c != Char.ofNat 10) && match_dot_star word t)

/-- Python `re.search("lower.*" + word, s) is not None`: some occurrence
of `"lower"` is followed, newline-free, by an occurrence of `word`. -/
def search_lower_star (word : List Char) : List Char → Bool
  | [] => false
  | c :: t =>
    ("lower".data.isPrefixOf (c :: t) && match_dot_star word ((c :: t).drop 5))
      || search_lower_star word t

/-- `re.search("lower.*" + word, s)` as a Bool on strings. -/
def regex_lower_then (s word : String) : Bool :=
  search_lower_star word.data s.data

/-! ### Data model

`RawMoveRecord` fields of `move_data` that `parse_effect_data` reads,
with the `dict.get` defaults of the source already applied
(`meta.get('ailment',{}).get('name','none')`, `meta.get('*_chance',0)`,
`meta.get('healing',0)`, `meta.get('min_hits')`, `meta.get('max_hits')`). -/

structure RawStatChange where
  stat_name : String
  change : Int
deriving Repr, DecidableEq

structure RawMeta where
  ailment_name : String
  ailment_chance : Int
  healing : Int
  stat_chance : Int
  flinch_chance : Int
  min_hits : Option Int
  max_hits : Option Int
deriving Repr, DecidableEq

structure EffectEntry where
  language_name : String
  effect_text : String
deriving Repr, DecidableEq

structure MoveData where
  name : String
  damage_class : String
  power : Option Int
  effect_chance : Option Int
  meta : RawMeta
  stat_changes : List RawStatChange
  effect_entries : List EffectEntry
deriving Repr, DecidableEq

/-- The canonical effect descriptors produced by `parse_effect_data`
(the `"type"` field of the Python dict is the constructor name, the
`"parameters"` entries are the arguments). -/
inductive Effect where
  | damage (multi_hit : Option (Int × Int))
  | apply_status (status : String) (target : String)
  | apply_volatile_status (status : String) (target : String)
  | stat_change (changes : List (String × Int)) (target : String)
  | heal (percent : Int) (target : String)
  | fixed_damage (damage_source : String)
  | switch_target
  | apply_field_effect (effect_type : String) (duration : Option Int) (target_side : String)
  | unknown_status
deriving Repr, DecidableEq

/-- A secondary effect `{"chance": ..., "effect": ...}`. -/
structure SecondaryEffect where
  chance : Int
  effect : Effect
deriving Repr, DecidableEq

/-- Is the descriptor a `damage` descriptor? -/
def Effect.is_damage : Effect → Bool
  | .damage _ => true
  | _ => false

/-! ### Taxonomy normalizer (`map_target`, `map_stat_name`, `map_status_name`) -/

/-- The `target_map` dict of `map_target`, in source order. -/
def target_map : List (String × String) :=
  [("specific-move", "user"),
   ("selected-pokemon-me-first", "normal_opponent"),
   ("ally", "ally"),
   ("users-field", "user_side"),
   ("user-or-ally", "user_or_ally"),
   ("opponents-field", "opponent_side"),
   ("user", "user"),
   ("random-opponent", "random_opponent"),
   ("all-other-pokemon", "all_other_pokemon"),
   ("selected-pokemon", "normal_opponent"),
   ("all-opponents", "all_adjacent_opponents"),
   ("entire-field", "whole_field"),
   ("user-and-allies", "user_and_allies"),
   ("all-pokemon", "all_pokemon"),
   ("all-allies", "all_allies"),
   ("fainting-pokemon", "target")]

/-- `map_target`: `target_map.get(name, "normal_opponent")`. -/
def map_target (pokeapi_target_name : String) : String :=
  (target_map.lookup pokeapi_target_name).getD "normal_opponent"

/-- The `stat_map` dict of `map_stat_name`. -/
def stat_map : List (String × String) :=
  [("hp", "hp"),
   ("attack", "attack"),
   ("defense", "defense"),
   ("special-attack", "special_attack"),
   ("special-defense", "special_defense"),
   ("speed", "speed"),
   ("accuracy", "accuracy"),
   ("evasion", "evasion")]

/-- `map_stat_name`: `stat_map.get(name)`, `none` when unrecognized. -/
def map_stat_name (pokeapi_stat_name : String) : Option String :=
  stat_map.lookup pokeapi_stat_name

/-- The `status_map` dict of `map_status_name`; `"none"` and `"unknown"`
are keys mapped to `None` in the source. -/
def status_map : List (String × Option String) :=
  [("paralysis", some "paralysis"),
   ("sleep", some "sleep"),
   ("freeze", some "freeze"),
   ("burn", some "burn"),
   ("poison", some "poison"),
   ("confusion", some "confusion"),
   ("infatuation", some "infatuation"),
   ("trap", some "bound"),
   ("nightmare", some "nightmare"),
   ("torment", some "torment"),
   ("disable", some "disable"),
   ("yawn", some "yawn"),
   ("heal-block", some "heal_block"),
   ("no-type-immunity", some "no_type_immunity"),
   ("leech-seed", some "leech_seed"),
   ("embargo", some "embargo"),
   ("perish-song", some "perish_song"),
   ("ingrain", some "ingrain"),
   ("silence", some "silence"),
   ("badly-poisoned", some "toxic"),
   ("none", none),
   ("unknown", none)]

/-- `map_status_name`: `status_map.get(name)`, `none` when unrecognized. -/
def map_status_name (pokeapi_ailment_name : String) : Option String :=
  (status_map.lookup pokeapi_ailment_name).join

/-- `get_english_effect`: first entry whose language is `"en"`, with
`$effect_chance` rewritten to the `{effect_chance}` placeholder. -/
def get_english_effect (effect_entries : List EffectEntry) : String :=
  match effect_entries.find? (fun e => e.language_name == "en") with
  | some e => str_replace e.effect_text "$effect_chance" "{effect_chance}"
  | none => "No English description found."

/-! ### Effect compiler (`parse_effect_data`) -/

/-- The volatile-status list tested by both the primary and the
secondary classification in `parse_effect_data`. -/
def volatile_statuses : List String :=
  ["confusion", "leech_seed", "bound", "infatuation", "torment", "disable",
   "yawn", "heal_block", "embargo", "perish_song", "ingrain"]

/-- The major-status list tested by both the primary and the secondary
classification in `parse_effect_data`. -/
def major_statuses : List String :=
  ["toxic", "paralysis", "sleep", "freeze", "burn", "poison"]

/-- The hardcoded per-name overrides: the nine early-return blocks of
`parse_effect_data`, in source order; `none` when no block matches. -/
def override_effect (move_name : String) : Option Effect :=
  if move_name ∈ (["light-screen", "reflect", "mist", "safeguard", "tailwind"] : List String) then
    some (.apply_field_effect
      (if move_name = "light-screen" then "light_screen"
       else if move_name = "reflect" then "reflect"
       else if move_name = "mist" then "mist"
       else if move_name = "safeguard" then "safeguard"
       else "tailwind")
      (some (if move_name = "tailwind" then 4 else 5))
      "user")
  else if move_name ∈ (["spikes", "toxic-spikes", "stealth-rock", "sticky-web"] : List String) then
    some (.apply_field_effect
      (if move_name = "spikes" then "spikes"
       else if move_name = "toxic-spikes" then "toxic_spikes"
       else if move_name = "stealth-rock" then "stealth_rock"
       else "sticky_web")
      none
      "opponent")
  else if move_name ∈ (["rain-dance", "sunny-day", "sandstorm", "hail"] : List String) then
    some (.apply_field_effect
      (if move_name = "rain-dance" then "rain"
       else if move_name = "sunny-day" then "harsh_sunlight"
       else if move_name = "sandstorm" then "sandstorm"
       else "hail")
      (some 5)
      "whole_field")
  else if move_name = "trick-room" then
    some (.apply_field_effect "trick_room" (some 5) "whole_field")
  else if move_name = "toxic" then
    some (.apply_status "toxic" "target")
  else if move_name = "swords-dance" then
    some (.stat_change [("attack", 2)] "user")
  else if move_name = "recover" ∨ move_name = "roost" ∨ move_name = "soft-boiled" then
    some (.heal 50 "user")
  else if move_name ∈ (["seismic-toss", "night-shade"] : List String) then
    some (.fixed_damage "user_level")
  else if move_name ∈ (["roar", "whirlwind"] : List String) then
    some .switch_target
  else
    none

/-- The `multi_hit` parameter attached to a `damage` effect: present
only when both hit counts are, and forced to `(3, 3)` for
`"triple-kick"`. -/
def multi_hit_param (move_name : String) (min_hits max_hits : Option Int) :
    Option (Int × Int) :=
  match min_hits, max_hits with
  | some mn, some mx =>
    if move_name = "triple-kick" then some (3, 3) else some (mn, mx)
  | _, _ => none

/-- One iteration of the `for change in stat_changes` loop: a recognized
stat appends `(stat, change)` and resets the running target from the
sign of this change; an unrecognized stat leaves the accumulator alone. -/
def stat_step (acc : List (String × Int) × String) (change : RawStatChange) :
    List (String × Int) × String :=
  match map_stat_name change.stat_name with
  | some stat =>
    (acc.1 ++ [(stat, change.change)],
     if change.change < 0 then "target" else "user")
  | none => acc

/-- The whole stat-change loop, from the initial target (`"user"` in the
primary branch, `"target"` in the secondary branch). -/
def build_stat_changes (stat_changes : List RawStatChange) (target0 : String) :
    List (String × Int) × String :=
  stat_changes.foldl stat_step ([], target0)

/-- The `damage_class == "status"` branch of the primary-effect chain
(`if ailment and ailment_chance == 0 / elif stat_changes and
stat_chance == 0 / elif healing > 0`). -/
def status_primary_of (md : MoveData) : Option Effect :=
  if (map_status_name md.meta.ailment_name).isSome ∧ md.meta.ailment_chance = 0 then
    match map_status_name md.meta.ailment_name with
    | some a =>
      if a ∈ volatile_statuses then some (.apply_volatile_status a "target")
      else if a ∈ major_statuses then some (.apply_status a "target")
      else none
    | none => none
  else if md.stat_changes.isEmpty = false ∧ md.meta.stat_chance = 0 then
    if (build_stat_changes md.stat_changes "user").1.isEmpty = false then
      some (.stat_change (build_stat_changes md.stat_changes "user").1
        (build_stat_changes md.stat_changes "user").2)
    else none
  else if md.meta.healing > 0 then
    some (.heal md.meta.healing "user")
  else none

/-- Step 1 of the general logic: the primary effect as first determined
(`None` when no branch fires). -/
def primary0_of (md : MoveData) : Option Effect :=
  if (md.damage_class = "physical" ∨ md.damage_class = "special") ∧ md.power.isSome then
    some (.damage (multi_hit_param md.name md.meta.min_hits md.meta.max_hits))
  else if md.damage_class = "status" then
    status_primary_of md
  else none

/-- The primary effect after the `if primary_effect is None` default. -/
def primary_effect_of (md : MoveData) : Effect :=
  match primary0_of md with
  | some p => p
  | none =>
    if md.damage_class = "physical" ∨ md.damage_class = "special" then
      .damage (multi_hit_param md.name md.meta.min_hits md.meta.max_hits)
    else
      .unknown_status

/-- The ailment-driven secondary candidate (`if ailment and
ailment_chance > 0`); the secondary classifier tests the major list
first, then the volatile list. -/
def ailment_candidate (md : MoveData) : List SecondaryEffect :=
  match map_status_name md.meta.ailment_name with
  | some a =>
    if md.meta.ailment_chance > 0 then
      if a ∈ major_statuses then
        [⟨md.meta.ailment_chance, .apply_status a "target"⟩]
      else if a ∈ volatile_statuses then
        [⟨md.meta.ailment_chance, .apply_volatile_status a "target"⟩]
      else []
    else []
  | none => []

/-- The stat-driven secondary candidate (`if stat_changes and
stat_chance > 0`), with default target `"target"`. -/
def stat_candidate (md : MoveData) : List SecondaryEffect :=
  if md.stat_changes.isEmpty = false ∧ md.meta.stat_chance > 0 then
    if (build_stat_changes md.stat_changes "target").1.isEmpty = false then
      [⟨md.meta.stat_chance,
        .stat_change (build_stat_changes md.stat_changes "target").1
          (build_stat_changes md.stat_changes "target").2⟩]
    else []
  else []

/-- The flinch secondary candidate (`if flinch_chance > 0`). -/
def flinch_candidate (md : MoveData) : List SecondaryEffect :=
  if md.meta.flinch_chance > 0 then
    [⟨md.meta.flinch_chance, .apply_volatile_status "flinch" "target"⟩]
  else []

/-- The ordered `secondary_candidates` list of step 2. -/
def secondary_candidates (md : MoveData) : List SecondaryEffect :=
  ailment_candidate md ++ stat_candidate md ++ flinch_candidate md

/-- The text-inference chain over the lowercased description (the
`desc_lower` checks of the final-cleanup block, in source order). -/
def infer_from_text (desc_lower : String) : Option Effect :=
  if str_contains desc_lower "paralyze" then some (.apply_status "paralysis" "target")
  else if str_contains desc_lower "burn" then some (.apply_status "burn" "target")
  else if str_contains desc_lower "freeze" then some (.apply_status "freeze" "target")
  else if str_contains desc_lower "poison" then some (.apply_status "poison" "target")
  else if str_contains desc_lower "flinch" then some (.apply_volatile_status "flinch" "target")
  else if str_contains desc_lower "confuse" || str_contains desc_lower "confusion" then
    some (.apply_volatile_status "confusion" "target")
  else if regex_lower_then desc_lower "attack" then
    some (.stat_change [("attack", -1)] "target")
  else if regex_lower_then desc_lower "defense" then
    some (.stat_change [("defense", -1)] "target")
  else if regex_lower_then desc_lower "special attack" then
    some (.stat_change [("special_attack", -1)] "target")
  else if regex_lower_then desc_lower "special defense" then
    some (.stat_change [("special_defense", -1)] "target")
  else if regex_lower_then desc_lower "speed" then
    some (.stat_change [("speed", -1)] "target")
  else if regex_lower_then desc_lower "accuracy" then
    some (.stat_change [("accuracy", -1)] "target")
  else none

/-- The secondary effect: the first candidate when the candidate list is
non-empty, otherwise the text inference gated by a defined positive
`effect_chance`. -/
def secondary_effect_of (md : MoveData) (description : String) : Option SecondaryEffect :=
  match (secondary_candidates md).head? with
  | some s => some s
  | none =>
    match md.effect_chance with
    | some ec =>
      if ec > 0 then
        match infer_from_text (str_lower description) with
        | some e => some ⟨ec, e⟩
        | none => none
      else none
    | none => none

/-- The chance printed into the description: the secondary effect's
chance when one exists, else `effect_chance` when defined, else `0`. -/
def display_chance (secondary : Option SecondaryEffect) (effect_chance : Option Int) :
    String :=
  match secondary with
  | some s => toString s.chance
  | none =>
    match effect_chance with
    | some ec => toString ec
    | none => "0"

/-- `parse_effect_data`: the override blocks return immediately with no
secondary effect and the placeholder resolved to `"0"`; otherwise the
general logic runs and the placeholder is resolved to the display
chance. -/
def parse_effect_data (md : MoveData) : Effect × Option SecondaryEffect × String :=
  let description := get_english_effect md.effect_entries
  match override_effect md.name with
  | some eff => (eff, none, str_replace description "{effect_chance}" "0")
  | none =>
    let secondary := secondary_effect_of md description
    (primary_effect_of md, secondary,
     str_replace description "{effect_chance}" (display_chance secondary md.effect_chance))

/-! ### Derived descriptions of the stat-change loop -/

/-- The list of recognized `(stat, stages)` pairs the loop accumulates. -/
def collect_changes : List RawStatChange → List (String × Int)
  | [] => []
  | c :: t =>
    match map_stat_name c.stat_name with
    | some s => (s, c.change) :: collect_changes t
    | none => collect_changes t

/-- The target the loop leaves behind: the direction (`"target"` for a
negative stage delta, `"user"` otherwise) of the last recognized change,
`none` when no change is recognized. -/
def last_dir : List RawStatChange → Option String
  | [] => none
  | c :: t =>
    match map_stat_name c.stat_name with
    | some _ =>
      match last_dir t with
      | some d => some d
      | none => some (if c.change < 0 then "target" else "user")
    | none => last_dir t

/-! ### Helper lemmas -/

lemma parse_override (md : MoveData) (e : Effect)
    (h : override_effect md.name = some e) :
    parse_effect_data md =
      (e, none, str_replace (get_english_effect md.effect_entries) "{effect_chance}" "0") := by
  simp [parse_effect_data, h]

lemma parse_general (md : MoveData) (h : override_effect md.name = none) :
    parse_effect_data md =
      (primary_effect_of md,
       secondary_effect_of md (get_english_effect md.effect_entries),
       str_replace (get_english_effect md.effect_entries) "{effect_chance}"
         (display_chance (secondary_effect_of md (get_english_effect md.effect_entries))
           md.effect_chance)) := by
  simp [parse_effect_data, h]

lemma parse_general_fst (md : MoveData) (h : override_effect md.name = none) :
    (parse_effect_data md).1 = primary_effect_of md := by
  rw [parse_general md h]

lemma parse_general_snd (md : MoveData) (h : override_effect md.name = none) :
    (parse_effect_data md).2.1 =
      secondary_effect_of md (get_english_effect md.effect_entries) := by
  rw [parse_general md h]

lemma parse_general_desc (md : MoveData) (h : override_effect md.name = none) :
    (parse_effect_data md).2.2 =
      str_replace (get_english_effect md.effect_entries) "{effect_chance}"
        (display_chance (secondary_effect_of md (get_english_effect md.effect_entries))
          md.effect_chance) := by
  rw [parse_general md h]

lemma lookup_eq_none_of_not_mem_keys {β : Type} (l : List (String × β)) (t : String)
    (h : t ∉ l.map Prod.fst) : l.lookup t = none := by
  induction l with
  | nil => rfl
  | cons kv rest ih =>
    obtain ⟨k, v⟩ := kv
    simp only [List.map_cons, List.mem_cons, not_or] at h
    cases htk : (t == k) with
    | true => exact absurd (by simpa using htk) h.1
    | false => simp [List.lookup, htk, ih h.2]

lemma lookup_mem_snd {β : Type} (l : List (String × β)) (t : String) (v : β)
    (h : l.lookup t = some v) : v ∈ l.map Prod.snd := by
  induction l with
  | nil => simp [List.lookup] at h
  | cons kv rest ih =>
    obtain ⟨k, b⟩ := kv
    cases htk : (t == k) with
    | true =>
      rw [List.lookup, htk] at h
      simp only [Option.some_inj] at h
      simp [h]
    | false =>
      rw [List.lookup, htk] at h
      simp [ih h]

lemma isEmpty_false_of_ne_nil {α : Type} {l : List α} (h : l ≠ []) :
    l.isEmpty = false := by
  cases l with
  | nil => exact absurd rfl h
  | cons a t => rfl

lemma collect_changes_cons (c : RawStatChange) (t : List RawStatChange) :
    collect_changes (c :: t) =
      match map_stat_name c.stat_name with
      | some s => (s, c.change) :: collect_changes t
      | none => collect_changes t := rfl

lemma last_dir_cons (c : RawStatChange) (t : List RawStatChange) :
    last_dir (c :: t) =
      match map_stat_name c.stat_name with
      | some _ =>
        match last_dir t with
        | some d => some d
        | none => some (if c.change < 0 then "target" else "user")
      | none => last_dir t := rfl

lemma foldl_stat_step_fst (l : List RawStatChange) (acc : List (String × Int) × String) :
    (l.foldl stat_step acc).1 = acc.1 ++ collect_changes l := by
  induction l generalizing acc with
  | nil => simp [collect_changes]
  | cons c t ih =>
    rw [List.foldl_cons, ih, collect_changes_cons]
    cases h : map_stat_name c.stat_name with
    | none => simp only [stat_step, h]
    | some s => simp [stat_step, h]

lemma foldl_stat_step_snd (l : List RawStatChange) (acc : List (String × Int) × String) :
    (l.foldl stat_step acc).2 = (last_dir l).getD acc.2 := by
  induction l generalizing acc with
  | nil => simp [last_dir]
  | cons c t ih =>
    rw [List.foldl_cons, ih, last_dir_cons]
    cases h : map_stat_name c.stat_name with
    | none => simp only [stat_step, h]
    | some s =>
      simp only [stat_step, h]
      cases hl : last_dir t <;> simp [hl]

lemma build_stat_changes_eq (l : List RawStatChange) (t0 : String) :
    build_stat_changes l t0 = (collect_changes l, (last_dir l).getD t0) := by
  unfold build_stat_changes
  refine Prod.ext ?_ ?_
  · simpa using foldl_stat_step_fst l ([], t0)
  · simpa using foldl_stat_step_snd l ([], t0)

lemma collect_changes_eq_nil (l : List RawStatChange)
    (h : ∀ c ∈ l, map_stat_name c.stat_name = none) : collect_changes l = [] := by
  induction l with
  | nil => rfl
  | cons c t ih =>
    have hc := h c (List.mem_cons_self c t)
    rw [collect_changes_cons, hc]
    exact ih (fun d hd => h d (List.mem_cons_of_mem c hd))

lemma collect_nil_iff_last_dir_none (l : List RawStatChange) :
    collect_changes l = [] ↔ last_dir l = none := by
  induction l with
  | nil => simp [collect_changes, last_dir]
  | cons c t ih =>
    rw [collect_changes_cons, last_dir_cons]
    cases h : map_stat_name c.stat_name with
    | none => exact ih
    | some s => cases hl : last_dir t <;> simp [hl]

/-! ### Claim C5: override-table resolution is exclusive -/

/-- C5: for every raw move record whose name matches the override
table, `parse_effect_data` returns exactly the override's mapped
primary descriptor, no secondary effect, and the description with its
chance placeholder resolved to the literal `0` — whatever the
structured fields and the description text contain. -/
theorem c5_override_exclusive (md : MoveData) (e : Effect)
    (h : override_effect md.name = some e) :
    parse_effect_data md =
      (e, none, str_replace (get_english_effect md.effect_entries) "{effect_chance}" "0") :=
  parse_override md e h

/-- A concrete light-screen record with a positive ailment chance,
stat changes and a defined effect chance: the override still decides
everything. -/
def light_screen_md : MoveData :=
  ⟨"light-screen", "status", none, some 30,
   ⟨"paralysis", 100, 0, 100, 100, none, none⟩,
   [⟨"attack", -2⟩],
   [⟨"en", "Reduces special damage."⟩]⟩

theorem c5_witness :
    override_effect light_screen_md.name =
      some (Effect.apply_field_effect "light_screen" (some 5) "user") ∧
    parse_effect_data light_screen_md =
      (Effect.apply_field_effect "light_screen" (some 5) "user", none,
       str_replace (get_english_effect light_screen_md.effect_entries) "{effect_chance}" "0") :=
  ⟨by decide,
   c5_override_exclusive light_screen_md
     (Effect.apply_field_effect "light_screen" (some 5) "user") (by decide)⟩

/-! ### Claim C8: unknown target tags default to normal_opponent -/

/-- C8: `map_target` maps every tag outside the fixed table to
`"normal_opponent"`, and is total: every result is one of the
canonical values of the table (or the default), so no input raises. -/
theorem c8_target_default (t : String) :
    (t ∉ target_map.map Prod.fst → map_target t = "normal_opponent") ∧
    map_target t ∈ "normal_opponent" :: target_map.map Prod.snd := by
  constructor
  · intro h
    unfold map_target
    rw [lookup_eq_none_of_not_mem_keys target_map t h]
    rfl
  · unfold map_target
    cases hl : target_map.lookup t with
    | none => simp
    | some v =>
      simp only [Option.getD_some]
      exact List.mem_cons_of_mem _ (lookup_mem_snd target_map t v hl)

theorem c8_witness :
    ("bizarre-tag" ∉ target_map.map Prod.fst) ∧
    map_target "bizarre-tag" = "normal_opponent" :=
  ⟨by decide, (c8_target_default "bizarre-tag").1 (by decide)⟩

/-! ### Claim C2: physical/special moves with power get a damage primary -/

/-- A record named `"toxic"` with damage class physical and a defined
power: the override fires first and the primary is `apply_status`,
not `damage`. -/
def toxic_physical_md : MoveData :=
  ⟨"toxic", "physical", some 50, none, ⟨"none", 0, 0, 0, 0, none, none⟩, [],
   [⟨"en", "A physical tagged record."⟩]⟩

/-- C2 as stated is false: a record with damage class physical and a
defined power whose name matches an override does not get a `damage`
primary. -/
theorem c2_counterexample :
    toxic_physical_md.damage_class = "physical" ∧
    toxic_physical_md.power = some 50 ∧
    (parse_effect_data toxic_physical_md).1 = Effect.apply_status "toxic" "target" ∧
    Effect.is_damage (parse_effect_data toxic_physical_md).1 = false := by
  decide

/-- C2 amended: for every record whose name does not match the
override table, damage class physical or special together with a
defined power forces a `damage` primary effect. -/
theorem c2_damage_primary (md : MoveData)
    (hov : override_effect md.name = none)
    (hdc : md.damage_class = "physical" ∨ md.damage_class = "special")
    (hp : md.power.isSome = true) :
    Effect.is_damage (parse_effect_data md).1 = true := by
  rw [parse_general_fst md hov]
  unfold primary_effect_of primary0_of
  rw [if_pos ⟨hdc, hp⟩]
  rfl

/-- A plain tackle-like record exercising the amended C2. -/
def tackle_md : MoveData :=
  ⟨"test-tackle", "physical", some 40, none, ⟨"none", 0, 0, 0, 0, none, none⟩, [],
   [⟨"en", "Hits the target."⟩]⟩

theorem c2_witness :
    override_effect tackle_md.name = none ∧
    tackle_md.damage_class = "physical" ∧
    tackle_md.power.isSome = true ∧
    Effect.is_damage (parse_effect_data tackle_md).1 = true :=
  ⟨by decide, by decide, by decide,
   c2_damage_primary tackle_md (by decide) (Or.inl (by decide)) (by decide)⟩

/-! ### Claim C3: triple-kick's forced multi-hit range -/

/-- A triple-kick record declaring no hit counts: no `multi_hit` range
is attached at all, so the compiled range is not `{3,3}`. -/
def triple_kick_nohits_md : MoveData :=
  ⟨"triple-kick", "physical", some 10, none, ⟨"none", 0, 0, 0, 0, none, none⟩, [],
   [⟨"en", "Hits three times."⟩]⟩

/-- C3 as stated is false: when the triple-kick record declares no
min/max hit counts the primary effect carries no `multi_hit` range,
rather than the claimed `{3,3}`. -/
theorem c3_counterexample :
    triple_kick_nohits_md.name = "triple-kick" ∧
    triple_kick_nohits_md.meta.min_hits = none ∧
    triple_kick_nohits_md.meta.max_hits = none ∧
    (parse_effect_data triple_kick_nohits_md).1 = Effect.damage none ∧
    (parse_effect_data triple_kick_nohits_md).1 ≠ Effect.damage (some (3, 3)) := by
  decide

/-- C3 amended: a triple-kick record with damage class physical or
special that declares both hit counts compiles to `multi_hit {3,3}`
regardless of the declared values. -/
theorem c3_triple_kick_forced (md : MoveData) (mn mx : Int)
    (hname : md.name = "triple-kick")
    (hdc : md.damage_class = "physical" ∨ md.damage_class = "special")
    (hmin : md.meta.min_hits = some mn)
    (hmax : md.meta.max_hits = some mx) :
    (parse_effect_data md).1 = Effect.damage (some (3, 3)) := by
  have hov : override_effect md.name = none := by rw [hname]; decide
  have hmh : multi_hit_param md.name md.meta.min_hits md.meta.max_hits = some (3, 3) := by
    rw [hname, hmin, hmax]
    simp [multi_hit_param]
  have hst : ¬ md.damage_class = "status" := by
    rcases hdc with h | h <;> rw [h] <;> decide
  rw [parse_general_fst md hov]
  unfold primary_effect_of primary0_of
  by_cases hp : md.power.isSome = true
  · rw [if_pos ⟨hdc, hp⟩, hmh]
  · rw [if_neg (fun hh => hp hh.2), if_neg hst]
    show (if md.damage_class = "physical" ∨ md.damage_class = "special" then
      Effect.damage (multi_hit_param md.name md.meta.min_hits md.meta.max_hits)
      else Effect.unknown_status) = _
    rw [if_pos hdc, hmh]

/-- A triple-kick record declaring the range {1,5}: still forced to
{3,3}. -/
def triple_kick_range_md : MoveData :=
  ⟨"triple-kick", "physical", some 10, none, ⟨"none", 0, 0, 0, 0, some 1, some 5⟩, [],
   [⟨"en", "Hits three times."⟩]⟩

theorem c3_witness :
    triple_kick_range_md.name = "triple-kick" ∧
    triple_kick_range_md.meta.min_hits = some 1 ∧
    triple_kick_range_md.meta.max_hits = some 5 ∧
    (parse_effect_data triple_kick_range_md).1 = Effect.damage (some (3, 3)) :=
  ⟨by decide, by decide, by decide,
   c3_triple_kick_forced triple_kick_range_md 1 5 (by decide) (Or.inl (by decide))
     (by decide) (by decide)⟩

/-! ### Claim C9: an unclassifiable deterministic ailment shadows the
later primary branches -/

/-- C9: for a non-override status-class record whose ailment is
present with chance 0 but whose canonical tag is in neither the
volatile nor the major list, the primary effect is the
`unknown_status` sentinel — whatever stat changes or healing the
record also carries. -/
theorem c9_ailment_shadowing (md : MoveData) (a : String)
    (hov : override_effect md.name = none)
    (hdc : md.damage_class = "status")
    (ha : map_status_name md.meta.ailment_name = some a)
    (hv : a ∉ volatile_statuses)
    (hm : a ∉ major_statuses)
    (hc : md.meta.ailment_chance = 0) :
    (parse_effect_data md).1 = Effect.unknown_status := by
  have hnd : ¬ (md.damage_class = "physical" ∨ md.damage_class = "special") := by
    rw [hdc]; decide
  have hsp : status_primary_of md = none := by
    unfold status_primary_of
    rw [ha]
    rw [if_pos ⟨rfl, hc⟩]
    show (if a ∈ volatile_statuses then some (Effect.apply_volatile_status a "target")
      else if a ∈ major_statuses then some (Effect.apply_status a "target")
      else none) = none
    rw [if_neg hv, if_neg hm]
  rw [parse_general_fst md hov]
  unfold primary_effect_of primary0_of
  rw [if_neg (fun hh => hnd hh.1), if_pos hdc, hsp]
  show (if md.damage_class = "physical" ∨ md.damage_class = "special" then
    Effect.damage (multi_hit_param md.name md.meta.min_hits md.meta.max_hits)
    else Effect.unknown_status) = _
  rw [if_neg hnd]

/-- A status record with ailment `"silence"` (canonical `silence`,
in neither status list) at chance 0, carrying deterministic stat
changes and positive healing. -/
def silence_md : MoveData :=
  ⟨"test-chant", "status", none, none, ⟨"silence", 0, 10, 0, 0, none, none⟩,
   [⟨"attack", -1⟩],
   [⟨"en", "A strange chant."⟩]⟩

theorem c9_witness :
    override_effect silence_md.name = none ∧
    silence_md.damage_class = "status" ∧
    map_status_name silence_md.meta.ailment_name = some "silence" ∧
    ("silence" ∉ volatile_statuses) ∧
    ("silence" ∉ major_statuses) ∧
    silence_md.meta.ailment_chance = 0 ∧
    silence_md.stat_changes ≠ [] ∧
    silence_md.meta.healing > 0 ∧
    (parse_effect_data silence_md).1 = Effect.unknown_status :=
  ⟨by decide, by decide, by decide, by decide, by decide, by decide, by decide, by decide,
   c9_ailment_shadowing silence_md "silence" (by decide) (by decide) (by decide)
     (by decide) (by decide) (by decide)⟩

/-! ### Claim C10: an all-unrecognized stat list still consumes the
stat branch and shadows healing -/

/-- C10: for a non-override status-class record with no deterministic
ailment, a non-empty stat list at stat chance 0 whose stat tags are
all unrecognized, the primary effect is `unknown_status`; the healing
branch is never consulted because the stat branch was entered and
produced no changes. -/
theorem c10_unrecognized_stats_unknown (md : MoveData)
    (hov : override_effect md.name = none)
    (hdc : md.damage_class = "status")
    (hail : map_status_name md.meta.ailment_name = none ∨ md.meta.ailment_chance ≠ 0)
    (hne : md.stat_changes.isEmpty = false)
    (hsc : md.meta.stat_chance = 0)
    (hall : ∀ c ∈ md.stat_changes, map_stat_name c.stat_name = none) :
    (parse_effect_data md).1 = Effect.unknown_status := by
  have hnd : ¬ (md.damage_class = "physical" ∨ md.damage_class = "special") := by
    rw [hdc]; decide
  have hnail : ¬ ((map_status_name md.meta.ailment_name).isSome = true ∧
      md.meta.ailment_chance = 0) := by
    rintro ⟨h1, h2⟩
    rcases hail with h | h
    · rw [h] at h1; cases h1
    · exact h h2
  have hcol : collect_changes md.stat_changes = [] := collect_changes_eq_nil _ hall
  have hsp : status_primary_of md = none := by
    unfold status_primary_of
    rw [if_neg hnail, if_pos ⟨hne, hsc⟩, build_stat_changes_eq]
    show (if (collect_changes md.stat_changes).isEmpty = false then _ else none) = none
    rw [if_neg (by rw [hcol]; decide)]
  rw [parse_general_fst md hov]
  unfold primary_effect_of primary0_of
  rw [if_neg (fun hh => hnd hh.1), if_pos hdc, hsp]
  show (if md.damage_class = "physical" ∨ md.damage_class = "special" then
    Effect.damage (multi_hit_param md.name md.meta.min_hits md.meta.max_hits)
    else Effect.unknown_status) = _
  rw [if_neg hnd]

/-- A status record with only an unrecognized stat tag and a positive
healing percent: the heal is lost. -/
def weird_stat_md : MoveData :=
  ⟨"test-weird", "status", none, none, ⟨"none", 0, 40, 0, 0, none, none⟩,
   [⟨"weirdness", -2⟩],
   [⟨"en", "Does something odd."⟩]⟩

theorem c10_witness :
    override_effect weird_stat_md.name = none ∧
    weird_stat_md.damage_class = "status" ∧
    map_status_name weird_stat_md.meta.ailment_name = none ∧
    weird_stat_md.stat_changes.isEmpty = false ∧
    weird_stat_md.meta.stat_chance = 0 ∧
    (∀ c ∈ weird_stat_md.stat_changes, map_stat_name c.stat_name = none) ∧
    weird_stat_md.meta.healing > 0 ∧
    (parse_effect_data weird_stat_md).1 = Effect.unknown_status :=
  ⟨by decide, by decide, by decide, by decide, by decide, by decide, by decide,
   c10_unrecognized_stats_unknown weird_stat_md (by decide) (by decide)
     (Or.inl (by decide)) (by decide) (by decide) (by decide)⟩

/-! ### Claim C4: the target of a deterministic stat_change primary -/

/-- A status record whose first stat change is positive (+1 attack)
and whose second is negative (-1 defense): the loop takes the
direction of the last recognized change. -/
def mixed_stat_md : MoveData :=
  ⟨"test-mixed", "status", none, none, ⟨"none", 0, 0, 0, 0, none, none⟩,
   [⟨"attack", 1⟩, ⟨"defense", -1⟩],
   [⟨"en", "Shifts stats around."⟩]⟩

/-- C4 as stated is false: with a positive first change the claim
demands target `"user"`, but the compiled target follows the last
change's sign and is `"target"`. -/
theorem c4_counterexample :
    mixed_stat_md.stat_changes.head? = some ⟨"attack", 1⟩ ∧
    (0 : Int) < 1 ∧
    mixed_stat_md.meta.stat_chance = 0 ∧
    (parse_effect_data mixed_stat_md).1 =
      Effect.stat_change [("attack", 1), ("defense", -1)] "target" ∧
    (parse_effect_data mixed_stat_md).1 ≠
      Effect.stat_change [("attack", 1), ("defense", -1)] "user" := by
  decide

/-- C4 amended: for a non-override status-class record whose ailment
signal does not fire, with stat chance 0 and at least one recognized
stat tag, the primary is a `stat_change` whose changes are the
recognized pairs in order and whose target is the direction of the
**last** recognized change (`"target"` when its delta is negative,
`"user"` otherwise). -/
theorem c4_stat_target_last_change (md : MoveData) (d : String)
    (hov : override_effect md.name = none)
    (hdc : md.damage_class = "status")
    (hail : map_status_name md.meta.ailment_name = none ∨ md.meta.ailment_chance ≠ 0)
    (hsc : md.meta.stat_chance = 0)
    (hld : last_dir md.stat_changes = some d) :
    (parse_effect_data md).1 = Effect.stat_change (collect_changes md.stat_changes) d := by
  have hnd : ¬ (md.damage_class = "physical" ∨ md.damage_class = "special") := by
    rw [hdc]; decide
  have hnail : ¬ ((map_status_name md.meta.ailment_name).isSome = true ∧
      md.meta.ailment_chance = 0) := by
    rintro ⟨h1, h2⟩
    rcases hail with h | h
    · rw [h] at h1; cases h1
    · exact h h2
  have hcol : collect_changes md.stat_changes ≠ [] := by
    intro hx
    rw [(collect_nil_iff_last_dir_none md.stat_changes).mp hx] at hld
    cases hld
  have hne : md.stat_changes.isEmpty = false := by
    cases hl : md.stat_changes with
    | nil =>
      rw [hl] at hcol
      exact absurd rfl hcol
    | cons a t => rfl
  have hsp : status_primary_of md =
      some (Effect.stat_change (collect_changes md.stat_changes) d) := by
    unfold status_primary_of
    rw [if_neg hnail, if_pos ⟨hne, hsc⟩, build_stat_changes_eq,
      if_pos (isEmpty_false_of_ne_nil hcol), hld]
    rfl
  rw [parse_general_fst md hov]
  unfold primary_effect_of primary0_of
  rw [if_neg (fun hh => hnd hh.1), if_pos hdc, hsp]

/-- A record with a negative last recognized change after a positive
first one: the amended rule gives target `"target"`. -/
theorem c4_witness :
    override_effect mixed_stat_md.name = none ∧
    mixed_stat_md.damage_class = "status" ∧
    map_status_name mixed_stat_md.meta.ailment_name = none ∧
    mixed_stat_md.meta.stat_chance = 0 ∧
    last_dir mixed_stat_md.stat_changes = some "target" ∧
    (parse_effect_data mixed_stat_md).1 =
      Effect.stat_change (collect_changes mixed_stat_md.stat_changes) "target" :=
  ⟨by decide, by decide, by decide, by decide, by decide,
   c4_stat_target_last_change mixed_stat_md "target" (by decide) (by decide)
     (Or.inl (by decide)) (by decide) (by decide)⟩

/-! ### Claim C1: text inference for paralysis -/

/-- A record with no ailment/stat/flinch signal, generic effect chance
10, and an English description containing `"may cause paralysis"`:
the scanner looks for the literal `"paralyze"`, which does not occur
in `"may cause paralysis"`, so no secondary effect is produced. -/
def cause_paralysis_md : MoveData :=
  ⟨"test-zap", "special", some 40, some 10, ⟨"none", 0, 0, 0, 0, none, none⟩, [],
   [⟨"en", "It may cause paralysis."⟩]⟩

/-- C1 as stated is false: the description contains
`"may cause paralysis"`, the generic effect chance is 10, no
structured signal exists, and yet the compiled secondary effect is
absent. -/
theorem c1_counterexample :
    str_contains (str_lower (get_english_effect cause_paralysis_md.effect_entries))
      "may cause paralysis" = true ∧
    cause_paralysis_md.effect_chance = some 10 ∧
    cause_paralysis_md.meta.ailment_chance = 0 ∧
    cause_paralysis_md.meta.stat_chance = 0 ∧
    cause_paralysis_md.meta.flinch_chance = 0 ∧
    (parse_effect_data cause_paralysis_md).2.1 = none := by
  decide

/-- C1 amended: the scanned keyword is `"paralyze"`. For every
non-override record whose ailment, stat and flinch chances are all 0,
whose generic effect chance is 10, and whose lowercased English
description contains the substring `"paralyze"`, the compiled
secondary effect is `{probability 10, apply_status paralysis on the
opponent}`. -/
theorem c1_paralyze_inference (md : MoveData)
    (hov : override_effect md.name = none)
    (ha : md.meta.ailment_chance = 0)
    (hs : md.meta.stat_chance = 0)
    (hf : md.meta.flinch_chance = 0)
    (hec : md.effect_chance = some 10)
    (hp : str_contains (str_lower (get_english_effect md.effect_entries))
      "paralyze" = true) :
    (parse_effect_data md).2.1 =
      some ⟨10, Effect.apply_status "paralysis" "target"⟩ := by
  have hcands : secondary_candidates md = [] := by
    unfold secondary_candidates ailment_candidate stat_candidate flinch_candidate
    rw [ha, hs, hf]
    cases map_status_name md.meta.ailment_name <;> simp
  rw [parse_general_snd md hov]
  unfold secondary_effect_of
  rw [hcands, hec]
  show (if (10 : Int) > 0 then _ else none) = _
  rw [if_pos (by norm_num : (10 : Int) > 0)]
  show (match infer_from_text (str_lower (get_english_effect md.effect_entries)) with
    | some e => some (⟨10, e⟩ : SecondaryEffect)
    | none => none) = _
  unfold infer_from_text
  rw [if_pos hp]

/-- A record whose description says "May paralyze the target.": the
amended C1 applies. -/
def paralyze_text_md : MoveData :=
  ⟨"test-zap-two", "special", some 40, some 10, ⟨"none", 0, 0, 0, 0, none, none⟩, [],
   [⟨"en", "May paralyze the target."⟩]⟩

theorem c1_witness :
    override_effect paralyze_text_md.name = none ∧
    paralyze_text_md.meta.ailment_chance = 0 ∧
    paralyze_text_md.meta.stat_chance = 0 ∧
    paralyze_text_md.meta.flinch_chance = 0 ∧
    paralyze_text_md.effect_chance = some 10 ∧
    str_contains (str_lower (get_english_effect paralyze_text_md.effect_entries))
      "paralyze" = true ∧
    (parse_effect_data paralyze_text_md).2.1 =
      some ⟨10, Effect.apply_status "paralysis" "target"⟩ :=
  ⟨by decide, by decide, by decide, by decide, by decide, by decide,
   c1_paralyze_inference paralyze_text_md (by decide) (by decide) (by decide)
     (by decide) (by decide) (by decide)⟩

/-! ### Claim C7: the first secondary candidate wins -/

lemma mem_of_head_eq_some {α : Type} {l : List α} {a : α}
    (h : l.head? = some a) : a ∈ l := by
  cases l with
  | nil => cases h
  | cons x t =>
    simp only [List.head?_cons, Option.some_inj] at h
    rw [← h]
    exact List.mem_cons_self x t

/-- C7: for a non-override record, whenever the ordered candidate list
(ailment, then stat, then flinch) has more than one element, the
retained secondary effect is exactly its first element; in particular
a record with a positive stat chance (with a recognized stat), a
positive flinch chance and ailment chance 0 retains the stat_change
candidate. -/
theorem c7_first_candidate_wins (md : MoveData)
    (hov : override_effect md.name = none) :
    (1 < (secondary_candidates md).length →
      (parse_effect_data md).2.1 = (secondary_candidates md).head?) ∧
    (md.meta.ailment_chance = 0 → 0 < md.meta.stat_chance →
      0 < md.meta.flinch_chance → collect_changes md.stat_changes ≠ [] →
      (parse_effect_data md).2.1 =
        some ⟨md.meta.stat_chance,
          Effect.stat_change (collect_changes md.stat_changes)
            ((last_dir md.stat_changes).getD "target")⟩) := by
  constructor
  · intro hlen
    rw [parse_general_snd md hov]
    unfold secondary_effect_of
    cases hcand : secondary_candidates md with
    | nil => rw [hcand] at hlen; simp at hlen
    | cons a t => rfl
  · intro h0 hs hf hcol
    have hne : md.stat_changes.isEmpty = false := by
      cases hl : md.stat_changes with
      | nil => rw [hl] at hcol; simp [collect_changes] at hcol
      | cons a t => rfl
    have ha : ailment_candidate md = [] := by
      unfold ailment_candidate
      cases map_status_name md.meta.ailment_name <;> simp [h0]
    have hstat : stat_candidate md =
        [⟨md.meta.stat_chance,
          Effect.stat_change (collect_changes md.stat_changes)
            ((last_dir md.stat_changes).getD "target")⟩] := by
      unfold stat_candidate
      rw [if_pos ⟨hne, hs⟩, build_stat_changes_eq,
        if_pos (isEmpty_false_of_ne_nil hcol)]
    rw [parse_general_snd md hov]
    unfold secondary_effect_of secondary_candidates
    rw [ha, hstat]
    rfl

/-- A record with both a stat-chance signal (20%, recognized stat
`speed`) and a flinch-chance signal (30%) but ailment chance 0: two
candidates, the stat_change one retained. -/
def stat_flinch_md : MoveData :=
  ⟨"test-rush", "physical", some 60, none, ⟨"none", 0, 0, 20, 30, none, none⟩,
   [⟨"speed", -1⟩],
   [⟨"en", "A fast strike."⟩]⟩

theorem c7_witness :
    override_effect stat_flinch_md.name = none ∧
    1 < (secondary_candidates stat_flinch_md).length ∧
    stat_flinch_md.meta.ailment_chance = 0 ∧
    0 < stat_flinch_md.meta.stat_chance ∧
    0 < stat_flinch_md.meta.flinch_chance ∧
    collect_changes stat_flinch_md.stat_changes ≠ [] ∧
    (parse_effect_data stat_flinch_md).2.1 = (secondary_candidates stat_flinch_md).head? ∧
    (parse_effect_data stat_flinch_md).2.1 =
      some ⟨20, Effect.stat_change [("speed", -1)] "target"⟩ :=
  ⟨by decide, by decide, by decide, by decide, by decide, by decide,
   (c7_first_candidate_wins stat_flinch_md (by decide)).1 (by decide),
   (c7_first_candidate_wins stat_flinch_md (by decide)).2 (by decide) (by decide)
     (by decide) (by decide)⟩

/-! ### Claim C6: secondary-effect probability bounds and the resolved
placeholder -/

lemma secondary_candidate_chance (md : MoveData) (s : SecondaryEffect)
    (h : s ∈ secondary_candidates md) :
    (0 < md.meta.ailment_chance ∧ s.chance = md.meta.ailment_chance) ∨
    (0 < md.meta.stat_chance ∧ s.chance = md.meta.stat_chance) ∨
    (0 < md.meta.flinch_chance ∧ s.chance = md.meta.flinch_chance) := by
  unfold secondary_candidates at h
  rcases List.mem_append.mp h with hh | hh
  · rcases List.mem_append.mp hh with h1 | h1
    · left
      unfold ailment_candidate at h1
      revert h1
      cases hms : map_status_name md.meta.ailment_name with
      | none => intro h1; simp at h1
      | some a =>
        intro h1
        replace h1 : s ∈ (if md.meta.ailment_chance > 0 then
            (if a ∈ major_statuses then
              [(⟨md.meta.ailment_chance, Effect.apply_status a "target"⟩ : SecondaryEffect)]
             else if a ∈ volatile_statuses then
              [(⟨md.meta.ailment_chance, Effect.apply_volatile_status a "target"⟩ : SecondaryEffect)]
             else [])
            else []) := h1
        by_cases hp : md.meta.ailment_chance > 0
        · rw [if_pos hp] at h1
          refine ⟨hp, ?_⟩
          by_cases hmaj : a ∈ major_statuses
          · rw [if_pos hmaj] at h1
            simp only [List.mem_singleton] at h1
            rw [h1]
          · rw [if_neg hmaj] at h1
            by_cases hvol : a ∈ volatile_statuses
            · rw [if_pos hvol] at h1
              simp only [List.mem_singleton] at h1
              rw [h1]
            · rw [if_neg hvol] at h1
              simp at h1
        · rw [if_neg hp] at h1
          simp at h1
    · right; left
      unfold stat_candidate at h1
      by_cases hc : md.stat_changes.isEmpty = false ∧ md.meta.stat_chance > 0
      · rw [if_pos hc] at h1
        by_cases hb : (build_stat_changes md.stat_changes "target").1.isEmpty = false
        · rw [if_pos hb] at h1
          simp only [List.mem_singleton] at h1
          exact ⟨hc.2, by rw [h1]⟩
        · rw [if_neg hb] at h1
          simp at h1
      · rw [if_neg hc] at h1
        simp at h1
  · right; right
    unfold flinch_candidate at hh
    by_cases hf : md.meta.flinch_chance > 0
    · rw [if_pos hf] at hh
      simp only [List.mem_singleton] at hh
      exact ⟨hf, by rw [hh]⟩
    · rw [if_neg hf] at hh
      simp at hh

lemma secondary_effect_of_cases (md : MoveData) (desc : String) (s : SecondaryEffect)
    (h : secondary_effect_of md desc = some s) :
    s ∈ secondary_candidates md ∨
    ∃ ec e, md.effect_chance = some ec ∧ 0 < ec ∧
      infer_from_text (str_lower desc) = some e ∧ s = ⟨ec, e⟩ := by
  unfold secondary_effect_of at h
  revert h
  cases hcand : (secondary_candidates md).head? with
  | some a =>
    intro h
    left
    simp only [Option.some_inj] at h
    rw [← h]
    exact mem_of_head_eq_some hcand
  | none =>
    intro h
    right
    revert h
    cases hec : md.effect_chance with
    | none => intro h; exact Option.noConfusion h
    | some ec =>
      intro h
      replace h : (if ec > 0 then
          (match infer_from_text (str_lower desc) with
           | some e => some (⟨ec, e⟩ : SecondaryEffect)
           | none => none)
          else none) = some s := h
      by_cases hpos : ec > 0
      · rw [if_pos hpos] at h
        revert h
        cases hinf : infer_from_text (str_lower desc) with
        | none => intro h; exact Option.noConfusion h
        | some e =>
          intro h
          replace h : some (⟨ec, e⟩ : SecondaryEffect) = some s := h
          simp only [Option.some_inj] at h
          exact ⟨ec, e, rfl, hpos, rfl, h.symm⟩
      · rw [if_neg hpos] at h
        exact Option.noConfusion h

/-- C6 amended: for a record whose four chance fields lie in [0,100],
a present secondary effect has probability strictly in (0,100]; when
the secondary effect is absent the resolved placeholder is the literal
`0` for an override record, else the record's generic effect chance
when defined, else the literal `0`. -/
theorem c6_secondary_chance_bounds (md : MoveData)
    (h1 : 0 ≤ md.meta.ailment_chance ∧ md.meta.ailment_chance ≤ 100)
    (h2 : 0 ≤ md.meta.stat_chance ∧ md.meta.stat_chance ≤ 100)
    (h3 : 0 ≤ md.meta.flinch_chance ∧ md.meta.flinch_chance ≤ 100)
    (h4 : ∀ ec : Int, md.effect_chance = some ec → 0 ≤ ec ∧ ec ≤ 100) :
    (∀ s : SecondaryEffect, (parse_effect_data md).2.1 = some s →
      0 < s.chance ∧ s.chance ≤ 100) ∧
    ((parse_effect_data md).2.1 = none →
      (parse_effect_data md).2.2 =
        str_replace (get_english_effect md.effect_entries) "{effect_chance}"
          (match override_effect md.name, md.effect_chance with
           | some _, _ => "0"
           | none, some ec => toString ec
           | none, none => "0")) := by
  cases hov : override_effect md.name with
  | some e =>
    rw [parse_override md e hov]
    constructor
    · intro s hs
      exact Option.noConfusion hs
    · intro _
      rfl
  | none =>
    rw [parse_general_snd md hov, parse_general_desc md hov]
    constructor
    · intro s hs
      rcases secondary_effect_of_cases md (get_english_effect md.effect_entries) s hs with
        hmem | ⟨ec, e2, hec, hpos, _, hse⟩
      · rcases secondary_candidate_chance md s hmem with ⟨hp, hc⟩ | ⟨hp, hc⟩ | ⟨hp, hc⟩
        · rw [hc]; exact ⟨hp, h1.2⟩
        · rw [hc]; exact ⟨hp, h2.2⟩
        · rw [hc]; exact ⟨hp, h3.2⟩
      · rw [hse]
        exact ⟨hpos, (h4 ec hec).2⟩
    · intro hnone
      rw [hnone]
      unfold display_chance
      cases md.effect_chance <;> rfl

/-- A plain ember-like record with a 25% burn ailment chance: the
secondary effect carries probability 25 with all chances in range. -/
def ember_md : MoveData :=
  ⟨"test-ember", "special", some 40, some 25, ⟨"burn", 25, 0, 0, 0, none, none⟩, [],
   [⟨"en", "Has a $effect_chance% chance to burn the target."⟩]⟩

theorem c6_witness :
    (0 ≤ ember_md.meta.ailment_chance ∧ ember_md.meta.ailment_chance ≤ 100) ∧
    (0 ≤ ember_md.meta.stat_chance ∧ ember_md.meta.stat_chance ≤ 100) ∧
    (0 ≤ ember_md.meta.flinch_chance ∧ ember_md.meta.flinch_chance ≤ 100) ∧
    (parse_effect_data ember_md).2.1 =
      some ⟨25, Effect.apply_status "burn" "target"⟩ ∧
    (0 : Int) < 25 ∧ (25 : Int) ≤ 100 :=
  ⟨by decide, by decide, by decide, by decide,
   by
    have h := (c6_secondary_chance_bounds ember_md (by decide) (by decide) (by decide)
      (by intro ec hec; cases hec; decide)).1
      ⟨25, Effect.apply_status "burn" "target"⟩ (by decide)
    exact h⟩

/-- A record named `"toxic"` (an override) with a defined generic
effect chance of 30 and a chance placeholder in its description: no
secondary effect is produced and the placeholder resolves to `0`,
not to 30. -/
def toxic_chance_md : MoveData :=
  ⟨"toxic", "status", none, some 30, ⟨"none", 0, 0, 0, 0, none, none⟩, [],
   [⟨"en", "Chance: $effect_chance%"⟩]⟩

/-- C6 as stated is false: with every chance in [0,100] and the
generic effect chance defined (30), the compiled entry has no
secondary effect yet its resolved placeholder is `0`, not the
record's generic effect chance. -/
theorem c6_counterexample :
    toxic_chance_md.effect_chance = some 30 ∧
    (0 : Int) ≤ 30 ∧ (30 : Int) ≤ 100 ∧
    (0 ≤ toxic_chance_md.meta.ailment_chance ∧ toxic_chance_md.meta.ailment_chance ≤ 100) ∧
    (0 ≤ toxic_chance_md.meta.stat_chance ∧ toxic_chance_md.meta.stat_chance ≤ 100) ∧
    (0 ≤ toxic_chance_md.meta.flinch_chance ∧ toxic_chance_md.meta.flinch_chance ≤ 100) ∧
    (parse_effect_data toxic_chance_md).2.1 = none ∧
    (parse_effect_data toxic_chance_md).2.2 = "Chance: 0%" ∧
    (parse_effect_data toxic_chance_md).2.2 ≠ "Chance: 30%" := by
  decide

end PokemonMoves
